import Mathlib

/-!
Verification of the queueing/worker discipline of `mqtt_tools`.

The repository contains two implementations of `MQTTQueuePublisher`:

* Variant A (`src/mqtt_tools/queue_publisher.py`): a `collections.deque`
  holding entries `[payload, topic, retain]`; `stop()` (via `_end_q`)
  pushes the sentinel `["stop", "", False]` to the FRONT of the deque with
  `appendleft` and joins the worker thread; the worker loop busy-polls
  `len(self._q) > 0`, pops from the left, breaks when `payload == "stop"`,
  and otherwise calls `self.publish(topic, payload, 2, retain)
  .wait_for_publish()`.

* Variant B (`src/src/mqtt_tools/queue_publisher.py`): a `queue.Queue`
  holding entries `[topic, payload, retain]`; the daemon worker thread is
  started in `__init__` via `_start_q`; the worker blocks on
  `self._q.get()`, publishes with qos 2 and waits; `stop()` busy-waits
  until `self._q.empty()` then calls `loop_stop()` and `disconnect()`,
  never joining or terminating the worker thread.

Both variants are embedded below as explicit state-passing functions, and
the worker as a per-iteration step function; interleavings of producer and
worker actions in Variant B are modelled as operation traces.
-/

namespace MqttTools

/-- A call recorded against the transport client's `publish`: the
positional arguments `(topic, payload, qos, retain)` of
`paho.mqtt.client.Client.publish`. -/
structure PublishCall where
  topic : String
  payload : String
  qos : Nat
  retain : Bool
deriving Repr, DecidableEq

/-- Python `AttributeError`, raised when `self._q` is accessed before it
has been assigned. -/
inductive PyError where
  | attributeError : PyError
deriving Repr, DecidableEq

/-! ## Variant A: `src/mqtt_tools/queue_publisher.py` -/

/-- A deque entry in Variant A.  `append_payload` stores
`[payload, topic, retain]` — payload first (line 85 of the source). -/
structure EntryA where
  payload : String
  topic : String
  retain : Bool
deriving Repr, DecidableEq

/-- The sentinel `["stop", "", False]` that `_end_q` pushes onto the front
of the deque. -/
def sentinelA : EntryA := { payload := "stop", topic := "", retain := false }

/-- The entry built by `append_payload(topic, payload, retain)`:
`self._q.append([payload, topic, retain])`. -/
def appendEntryA (topic payload : String) (retain : Bool) : EntryA :=
  { payload := payload, topic := topic, retain := retain }

/-- The publish call issued for a dequeued Variant A entry:
`self.publish(topic, payload, 2, retain)`. -/
def pubOfA (e : EntryA) : PublishCall :=
  { topic := e.topic, payload := e.payload, qos := 2, retain := e.retain }

/-- Outcome of one iteration of Variant A's `while True` consume loop. -/
inductive IterResultA where
  /-- `len(self._q) > 0` was false: the iteration completes without
  dequeuing anything and the loop immediately repeats the check. -/
  | spun : IterResultA
  /-- An entry was dequeued and published (with a blocking
  `wait_for_publish`). -/
  | published : PublishCall → IterResultA
  /-- The dequeued entry had `payload == "stop"`: `break`. -/
  | exited : IterResultA
deriving Repr, DecidableEq

/-- One iteration of Variant A's consume loop (source lines 95–101),
acting on the deque contents (head = left end of the deque): check
`len(self._q) > 0`; if so `popleft`; `break` if the popped payload is
`"stop"`; otherwise publish with qos 2 and block on `wait_for_publish`. -/
def workerIterA : List EntryA → List EntryA × IterResultA
  | [] => ([], IterResultA.spun)
  | e :: rest =>
    if e.payload = "stop" then (rest, IterResultA.exited)
    else (rest, IterResultA.published (pubOfA e))

/-- Run Variant A's consume loop over the current deque contents until it
either exhausts them or breaks on a `"stop"` payload.  Returns the publish
calls issued (in order) and the entries left in the deque after a break. -/
def processA : List EntryA → List PublishCall × List EntryA
  | [] => ([], [])
  | e :: rest =>
    if e.payload = "stop" then ([], rest)
    else
      let pr := processA rest
      (pubOfA e :: pr.1, pr.2)

/-- State of a Variant A publisher instance.  `q = none` models the
`_q` attribute not existing yet (it is first assigned in `_start_q`, not
in `__init__`); `tAlive` models `self._t.is_alive()`; `published` is the
ghost list of publish calls the transport client has received;
`threadsSpawned` counts calls to `threading.Thread(...).start()`;
`warnings` counts `warnings.warn` emissions; `loopRunning` models the
paho network loop (`loop_start`/`loop_stop`). -/
structure StateA where
  q : Option (List EntryA)
  tAlive : Bool
  published : List PublishCall
  warnings : Nat
  threadsSpawned : Nat
  loopRunning : Bool
deriving Repr, DecidableEq

/-- `__init__`: `self._t = threading.Thread()` — an unstarted thread, so
`is_alive()` is false; `_q` is NOT created here. -/
def initA : StateA :=
  { q := none, tAlive := false, published := [], warnings := 0,
    threadsSpawned := 0, loopRunning := false }

/-- `_start_q` (source lines 49–65): if the worker thread is not alive,
assign a fresh empty deque to `self._q` and start a new worker thread;
otherwise emit a warning and change nothing. -/
def startQA (s : StateA) : StateA :=
  if s.tAlive = false then
    { s with q := some [], tAlive := true,
             threadsSpawned := s.threadsSpawned + 1 }
  else
    { s with warnings := s.warnings + 1 }

/-- `run(mqtthost)`: `connect`, `loop_start`, `_start_q`. -/
def runA (s : StateA) : StateA :=
  startQA { s with loopRunning := true }

/-- `append_payload(topic, payload, retain)` (source lines 75–85):
`self._q.append([payload, topic, retain])` — raises `AttributeError` if
`_q` has never been assigned. -/
def appendPayloadA (topic payload : String) (retain : Bool) (s : StateA) :
    Except PyError StateA :=
  match s.q with
  | none => Except.error PyError.attributeError
  | some qs =>
      Except.ok { s with q := some (qs ++ [appendEntryA topic payload retain]) }

/-- The `q_size` property (source lines 44–47): `len(self._q)` — raises
`AttributeError` if `_q` has never been assigned. -/
def qSizeA (s : StateA) : Except PyError Nat :=
  match s.q with
  | none => Except.error PyError.attributeError
  | some qs => Except.ok qs.length

/-- One scheduled iteration of the worker thread as a transition on the
whole publisher state.  Only has an effect while the thread is alive. -/
def workerStepA (s : StateA) : StateA :=
  if s.tAlive then
    match s.q with
    | none => s
    | some qs =>
      match workerIterA qs with
      | (_, IterResultA.spun) => s
      | (rest, IterResultA.published c) =>
          { s with q := some rest, published := s.published ++ [c] }
      | (rest, IterResultA.exited) =>
          { s with q := some rest, tAlive := false }
  else s

/-- `_end_q` (source lines 67–73): if the worker thread is alive, push the
sentinel onto the FRONT of the deque (`appendleft`) and join the thread.
The join lets the worker run to its `break`: the combined effect on the
queue and the transport is `processA` applied to `sentinel :: queue`.
If the thread is not alive, do nothing. -/
def endQA (s : StateA) : Except PyError StateA :=
  if s.tAlive then
    match s.q with
    | none => Except.error PyError.attributeError
    | some qs =>
        let pr := processA (sentinelA :: qs)
        Except.ok { s with q := some pr.2, published := s.published ++ pr.1,
                           tAlive := false }
  else Except.ok s

/-- `stop()` (source lines 35–42): `_end_q()` then `loop_stop()`. -/
def stopA (s : StateA) : Except PyError StateA :=
  Except.map (fun s2 => { s2 with loopRunning := false }) (endQA s)

/-! ## Variant B: `src/src/mqtt_tools/queue_publisher.py` -/

/-- A queue entry in Variant B.  `append_payload` stores
`[topic, payload, retain]` — topic first (line 88 of the source). -/
structure EntryB where
  topic : String
  payload : String
  retain : Bool
deriving Repr, DecidableEq

/-- The entry built by Variant B's `append_payload(topic, payload,
retain)`: `self._q.put_nowait([topic, payload, retain])`. -/
def appendEntryB (topic payload : String) (retain : Bool) : EntryB :=
  { topic := topic, payload := payload, retain := retain }

/-- The publish call issued for a dequeued Variant B entry:
`self.publish(topic, payload, 2, retain)`. -/
def pubOfB (e : EntryB) : PublishCall :=
  { topic := e.topic, payload := e.payload, qos := 2, retain := e.retain }

/-- The publish calls the worker issues when it drains a list of queued
entries in FIFO order. -/
def processB (qs : List EntryB) : List PublishCall := qs.map pubOfB

/-- One iteration of Variant B's consume loop (source lines 72–76):
`self._q.get()` BLOCKS when the queue is empty, so no iteration completes
on an empty queue (`none`); on a non-empty queue the head entry is removed
and published with qos 2 and a blocking `wait_for_publish`. -/
def workerIterB : List EntryB → Option (List EntryB × PublishCall)
  | [] => none
  | e :: rest => some (rest, pubOfB e)

/-- State of a Variant B publisher instance.  `workerAlive` models the
daemon worker thread; `loopRunning`/`connected` model the paho network
loop and connection; `published` is the ghost list of transport publish
calls. -/
structure StateB where
  q : List EntryB
  published : List PublishCall
  workerAlive : Bool
  loopRunning : Bool
  connected : Bool
deriving Repr, DecidableEq

/-- `__init__`: calls `_start_q`, which creates an empty `queue.Queue`
and starts the daemon worker thread immediately. -/
def initB : StateB :=
  { q := [], published := [], workerAlive := true, loopRunning := false,
    connected := false }

/-- Variant B `append_payload` (source lines 78–88): `put_nowait` at the
tail; never blocks, never fails (`_q` exists from construction). -/
def appendPayloadB (topic payload : String) (retain : Bool) (s : StateB) :
    StateB :=
  { s with q := s.q ++ [appendEntryB topic payload retain] }

/-- The `q_size` property in Variant B: `self._q.qsize()`. -/
def qSizeB (s : StateB) : Nat := s.q.length

/-- One scheduled iteration of Variant B's worker as a state transition:
dequeue the head entry, publish it, wait for completion, `task_done`.
On an empty queue `get()` blocks, so the transition stutters.  The worker
loop is `while True` with no `break`: nothing ever sets `workerAlive` to
false. -/
def workerStepB (s : StateB) : StateB :=
  match workerIterB s.q with
  | none => s
  | some (rest, c) => { s with q := rest, published := s.published ++ [c] }

/-- The exit condition of `stop()`'s busy-wait (source lines 42–44):
`stop()` returns only once `self._q.empty()` is observed true. -/
def stopBReturns (s : StateB) : Bool := s.q.isEmpty

/-- The effect of `stop()` once its busy-wait has exited (source lines
45–46): `loop_stop()` and `disconnect()`.  The daemon worker thread is
neither joined nor signalled: `workerAlive` is untouched. -/
def stopB (s : StateB) : StateB :=
  { s with loopRunning := false, connected := false }

/-- Interleaved operations on a Variant B publisher: a producer append or
a scheduled worker iteration. -/
inductive OpB where
  | append (topic payload : String) (retain : Bool) : OpB
  | work : OpB
deriving Repr, DecidableEq

/-- Run a trace of interleaved operations from a state. -/
def runOpsB : List OpB → StateB → StateB
  | [], s => s
  | OpB.append t p r :: ops, s => runOpsB ops (appendPayloadB t p r s)
  | OpB.work :: ops, s => runOpsB ops (workerStepB s)

/-- The requests enqueued by a trace, in enqueue order. -/
def appendsOf : List OpB → List EntryB
  | [] => []
  | OpB.append t p r :: ops => appendEntryB t p r :: appendsOf ops
  | OpB.work :: ops => appendsOf ops

end MqttTools

namespace MqttTools

/-! ## Helper lemmas -/

/-- The sentinel's payload is `"stop"`, so the worker breaks on it at once
and everything behind it in the deque is left unprocessed. -/
lemma processA_sentinel_cons (qs : List EntryA) :
    processA (sentinelA :: qs) = ([], qs) := rfl

/-- If no queued payload equals `"stop"`, the worker loop publishes every
entry, in order, and leaves nothing behind. -/
lemma processA_no_stop (es : List EntryA) (h : ∀ e ∈ es, e.payload ≠ "stop") :
    processA es = (es.map pubOfA, []) := by
  induction es with
  | nil => rfl
  | cons e rest ih =>
    have he : e.payload ≠ "stop" := h e (List.mem_cons_self e rest)
    have hrest : ∀ x ∈ rest, x.payload ≠ "stop" :=
      fun x hx => h x (List.mem_cons_of_mem e hx)
    simp [processA, he, ih hrest]

/-- Trace invariant for Variant B: the publish calls issued so far,
followed by the publish calls the still-queued entries will produce,
equal the starting state's contribution plus one publish call per request
appended by the trace, in order. -/
lemma runOpsB_published_q (ops : List OpB) (s : StateB) :
    (runOpsB ops s).published ++ processB (runOpsB ops s).q
      = s.published ++ processB s.q ++ processB (appendsOf ops) := by
  induction ops generalizing s with
  | nil => simp [runOpsB, appendsOf, processB]
  | cons op ops ih =>
    cases op with
    | append t p r =>
      rw [runOpsB, appendsOf, ih]
      simp [appendPayloadB, processB]
    | work =>
      rw [runOpsB, appendsOf, ih]
      cases hq : s.q with
      | nil => simp [workerStepB, workerIterB, hq]
      | cons e rest => simp [workerStepB, workerIterB, hq, processB]

/-- No operation in a Variant B trace ever changes `workerAlive`: the
daemon worker loop is `while True` with no exit. -/
lemma runOpsB_workerAlive (ops : List OpB) (s : StateB) :
    (runOpsB ops s).workerAlive = s.workerAlive := by
  induction ops generalizing s with
  | nil => rfl
  | cons op ops ih =>
    cases op with
    | append t p r =>
      rw [runOpsB, ih]
      simp [appendPayloadB]
    | work =>
      rw [runOpsB, ih]
      cases hq : s.q <;> simp [workerStepB, workerIterB, hq]

end MqttTools

namespace MqttTools

/-! ## Claim theorems -/

/-- C6: starting an already-Running publisher (Variant A `_start_q` with
the worker thread alive) is a no-op apart from emitting one non-fatal
warning: the queue is not replaced, no second consumer thread is spawned
(`threadsSpawned` is unchanged), and no other state is touched. -/
theorem c6_start_when_running_is_warned_noop (s : StateA)
    (h : s.tAlive = true) :
    startQA s = { s with warnings := s.warnings + 1 } := by
  simp [startQA, h]

/-- Witness for C6 at a concrete Running state: after one successful
start, a second `_start_q` only increments the warning count. -/
theorem c6_start_when_running_is_warned_noop_witness :
    (startQA initA).tAlive = true
    ∧ startQA (startQA initA)
        = { startQA initA with warnings := (startQA initA).warnings + 1 } :=
  ⟨rfl, c6_start_when_running_is_warned_noop (startQA initA) rfl⟩

/-- C7: calling `stop()` on a Variant A publisher whose worker thread is
not alive — including the freshly constructed state with no `_q` attribute
and no prior `start()` — returns normally (no exception), enqueues no
sentinel, joins nothing, and only stops the network loop. -/
theorem c7_stop_when_not_running_is_noop (s : StateA)
    (h : s.tAlive = false) :
    stopA s = Except.ok { s with loopRunning := false } := by
  simp [stopA, endQA, h, Except.map]

/-- Witness for C7 at the freshly constructed state (empty/no queue, no
prior `start()`): `stop()` succeeds and changes nothing (the network loop
was never started). -/
theorem c7_stop_when_not_running_is_noop_witness :
    initA.tAlive = false
    ∧ stopA initA = Except.ok { initA with loopRunning := false } :=
  ⟨rfl, c7_stop_when_not_running_is_noop initA rfl⟩

/-- C9: in the sentinel-terminated implementation (Variant A), reading
`q_size` or calling `append_payload` on a freshly constructed publisher
raises `AttributeError`, because `self._q` is only assigned inside
`_start_q`; once `_start_q` has run, `q_size` succeeds (and is 0). -/
theorem c9_attribute_error_before_start :
    qSizeA initA = Except.error PyError.attributeError
    ∧ appendPayloadA "sensors/temp" "21.5" false initA
        = Except.error PyError.attributeError
    ∧ qSizeA (startQA initA) = Except.ok 0 :=
  ⟨rfl, rfl, rfl⟩

/-- C10: every successful Variant A start (worker not alive) assigns a
fresh empty deque to `self._q`: immediately afterwards the queue size is
0, and nothing new reaches the transport — entries that were sitting in
the previous deque (e.g. appended after an earlier `stop()`) are no longer
in the queue and are never delivered. -/
theorem c10_start_replaces_queue_with_fresh_empty (s : StateA)
    (h : s.tAlive = false) :
    (startQA s).q = some []
    ∧ qSizeA (startQA s) = Except.ok 0
    ∧ (startQA s).published = s.published := by
  simp [startQA, h, qSizeA]

/-- Witness for C10 at the concrete state reached by `run`, one append,
`stop()`, then another append: the entry appended after `stop()` sits in
the old deque and restarting discards it (`q` becomes `some []`). -/
theorem c10_start_replaces_queue_with_fresh_empty_witness :
    (startQA { q := some [appendEntryA "t" "p1" false,
                          appendEntryA "t" "p2" false],
               tAlive := false, published := [], warnings := 0,
               threadsSpawned := 1, loopRunning := false }).q = some [] :=
  (c10_start_replaces_queue_with_fresh_empty _ rfl).1

end MqttTools

namespace MqttTools

/-- C1 counterexample: in Variant A a request appended before `stop()` is
lost.  Start the worker, append one request, then call `stop()` before
the worker dequeues it (one admissible interleaving).  `_end_q` pushes the
sentinel onto the FRONT of the deque, so the worker dequeues the sentinel
first and breaks: the final state has `published = []` (the request never
reached the transport), the request stranded in the deque, and the worker
dead (`tAlive = false`), so it can never be delivered. -/
theorem c1_counterexample_requestLostOnStopA :
    (appendPayloadA "sensors/temp" "21.5" false (startQA initA)).bind stopA
      = Except.ok { q := some [appendEntryA "sensors/temp" "21.5" false],
                    tAlive := false, published := [], warnings := 0,
                    threadsSpawned := 1, loopRunning := false } := rfl

/-- C1 (amended): only Variant B guarantees that no request appended
before `stop()` is lost: for every interleaving of appends and worker
iterations, once `stop()`'s busy-wait can return (queue observed empty),
every appended request has been delivered via `publish`, in order.  In
Variant A the front-inserted sentinel overtakes the queue: `stop()` on a
Running publisher delivers nothing further — the publish calls already
made are all there ever are, and the still-queued requests are stranded
(only requests the worker dequeued before `stop()` are delivered). -/
theorem c1_amended_lossFreedom :
    (∀ ops : List OpB, stopBReturns (runOpsB ops initB) = true →
        (runOpsB ops initB).published = processB (appendsOf ops))
    ∧ (∀ (s : StateA) (qs : List EntryA), s.tAlive = true → s.q = some qs →
        endQA s = Except.ok { s with tAlive := false }) := by
  constructor
  · intro ops h
    have hq : (runOpsB ops initB).q = [] := by
      simpa [stopBReturns, List.isEmpty_iff] using h
    have hinv := runOpsB_published_q ops initB
    rw [hq] at hinv
    simpa [initB, processB] using hinv
  · intro s qs ht hq
    simp [endQA, ht, hq, processA_sentinel_cons]

/-- Witness for C1 (amended) on a concrete trace (Variant B part: one
append then one worker iteration, after which `stop()` can return and the
request was published) and a concrete Running Variant A state with one
queued request (stop publishes nothing further). -/
theorem c1_amended_lossFreedom_witness :
    ((runOpsB [OpB.append "t" "p" false, OpB.work] initB).published
        = processB (appendsOf [OpB.append "t" "p" false, OpB.work]))
    ∧ endQA { q := some [appendEntryA "t" "p" false], tAlive := true,
              published := [], warnings := 0, threadsSpawned := 1,
              loopRunning := true }
        = Except.ok { q := some [appendEntryA "t" "p" false],
                      tAlive := false, published := [], warnings := 0,
                      threadsSpawned := 1, loopRunning := true } :=
  ⟨c1_amended_lossFreedom.1 [OpB.append "t" "p" false, OpB.work] (by decide),
   c1_amended_lossFreedom.2 _ [appendEntryA "t" "p" false] rfl rfl⟩

/-- C2 counterexample: in Variant B the worker is NOT terminated before
`stop()` returns.  On a freshly constructed publisher the queue is empty,
so `stop()`'s busy-wait exits immediately and `stop()` returns — yet the
daemon worker thread is still alive (blocked in `self._q.get()`); nothing
in `stop()` joins or signals it. -/
theorem c2_counterexample_workerAliveAfterStopB :
    stopBReturns initB = true ∧ (stopB initB).workerAlive = true :=
  ⟨rfl, rfl⟩

/-- C2 (amended): only Variant A joins the worker: whenever `stop()`
returns normally, the worker thread is no longer alive.  In Variant B
`stop()` never changes the daemon worker thread's liveness — the worker
remains alive after `stop()` returns. -/
theorem c2_amended_stopJoinsWorker :
    (∀ (s s2 : StateA), stopA s = Except.ok s2 → s2.tAlive = false)
    ∧ (∀ s : StateB, (stopB s).workerAlive = s.workerAlive) := by
  constructor
  · intro s s2 h
    by_cases ht : s.tAlive
    · cases hq : s.q with
      | none => simp [stopA, endQA, ht, hq, Except.map] at h
      | some qs =>
        simp [stopA, endQA, ht, hq, Except.map] at h
        simp [← h]
    · simp [stopA, endQA, ht, Except.map] at h
      rw [← h]
  · intro s
    rfl

/-- Witness for C2 (amended): a started Variant A publisher is stopped;
the resulting state has `tAlive = false`. -/
theorem c2_amended_stopJoinsWorker_witness :
    ({ q := some [], tAlive := false, published := [], warnings := 0,
       threadsSpawned := 1, loopRunning := false } : StateA).tAlive = false :=
  c2_amended_stopJoinsWorker.1 (startQA initA) _ rfl

end MqttTools

namespace MqttTools

/-- C3 counterexample: a single appended request (N = 1, payloads
trivially distinct) whose payload is the string `"stop"` produces ZERO
publish calls in Variant A — the worker breaks on it instead of
delivering it — so the worker does not issue exactly N publish calls for
every sequence of N requests. -/
theorem c3_counterexample_stopPayloadNotPublished :
    (processA [appendEntryA "t1" "stop" false]).1 = []
    ∧ [appendEntryA "t1" "stop" false].length = 1 :=
  ⟨rfl, rfl⟩

/-- C3 (amended): the worker issues exactly one publish call per appended
request, in append order (FIFO: append at tail, remove from head) —
in Variant A provided no appended payload equals the sentinel string
`"stop"`, and in Variant B unconditionally (for every interleaving of
appends and worker iterations, once the queue has drained the transport
has received exactly one call per request, in append order). -/
theorem c3_amended_fifoExactlyOnce :
    (∀ es : List EntryA, (∀ e ∈ es, e.payload ≠ "stop") →
        processA es = (es.map pubOfA, []))
    ∧ (∀ ops : List OpB, (runOpsB ops initB).q = [] →
        (runOpsB ops initB).published = (appendsOf ops).map pubOfB) := by
  constructor
  · exact processA_no_stop
  · intro ops hq
    have hinv := runOpsB_published_q ops initB
    rw [hq] at hinv
    simpa [initB, processB] using hinv

/-- Witness for C3 (amended) on the spec's two-request scenario: append
`("sensors/temp", "21.5", retain=false)` then `("sensors/temp", "22.0",
retain=true)`; the worker publishes exactly those two calls in that
order, with those retain flags (Variant A part, no `"stop"` payloads),
and the drained Variant B trace agrees. -/
theorem c3_amended_fifoExactlyOnce_witness :
    processA [appendEntryA "sensors/temp" "21.5" false,
              appendEntryA "sensors/temp" "22.0" true]
      = ([pubOfA (appendEntryA "sensors/temp" "21.5" false),
          pubOfA (appendEntryA "sensors/temp" "22.0" true)], [])
    ∧ (runOpsB [OpB.append "sensors/temp" "21.5" false,
                OpB.append "sensors/temp" "22.0" true,
                OpB.work, OpB.work] initB).published
        = (appendsOf [OpB.append "sensors/temp" "21.5" false,
                      OpB.append "sensors/temp" "22.0" true,
                      OpB.work, OpB.work]).map pubOfB :=
  ⟨c3_amended_fifoExactlyOnce.1 _ (by decide),
   c3_amended_fifoExactlyOnce.2 _ (by decide)⟩

/-- C4 counterexample: a dequeued Variant A request whose payload is
`"stop"` is not published at all: the consume iteration exits the loop
instead of invoking the transport's publish, so not every dequeued
(topic, payload, retain) triple is delivered with qos 2. -/
theorem c4_counterexample_dequeuedButNotPublished :
    workerIterA [appendEntryA "news" "stop" true] = ([], IterResultA.exited) :=
  rfl

/-- C4 (amended): per-request delivery, with the Variant A sentinel
match carved out.  In Variant B every dequeued entry (topic, payload,
retain) is published with exactly that topic, that payload, the fixed
qos 2, and that retain flag, one entry per loop iteration (`publish(...)
.wait_for_publish()` completes before the next `get()`).  In Variant A
the same holds for every dequeued entry whose payload is not `"stop"`.
Each worker iteration issues at most one publish call, so at most one
delivery is in flight at a time. -/
theorem c4_amended_perRequestDelivery :
    (∀ (e : EntryB) (rest : List EntryB),
        workerIterB (e :: rest)
          = some (rest, { topic := e.topic, payload := e.payload, qos := 2,
                          retain := e.retain }))
    ∧ (∀ (e : EntryA) (rest : List EntryA), e.payload ≠ "stop" →
        workerIterA (e :: rest)
          = (rest, IterResultA.published
              { topic := e.topic, payload := e.payload, qos := 2,
                retain := e.retain }))
    ∧ (∀ s : StateB,
        (workerStepB s).published.length ≤ s.published.length + 1) := by
  refine ⟨fun e rest => rfl, fun e rest he => ?_, fun s => ?_⟩
  · simp [workerIterA, he, pubOfA]
  · cases hq : s.q with
    | nil => simp [workerStepB, workerIterB, hq]
    | cons e rest => simp [workerStepB, workerIterB, hq]

/-- Witness for C4 (amended): a dequeued `("sensors/temp", "22.0",
retain=true)` entry is published as `publish("sensors/temp", "22.0", 2,
True)`. -/
theorem c4_amended_perRequestDelivery_witness :
    workerIterA [appendEntryA "sensors/temp" "22.0" true]
      = ([], IterResultA.published
          { topic := "sensors/temp", payload := "22.0", qos := 2,
            retain := true }) :=
  c4_amended_perRequestDelivery.2.1 (appendEntryA "sensors/temp" "22.0" true)
    [] (by decide)

/-- C5 counterexample: a PublishRequest created through `append_payload`
IS mistaken for the sentinel.  The request `append_payload("sensors/temp",
"stop", retain=False)` differs from the sentinel `["stop", "", False]`
(different topic), yet the worker treats it as the stop signal: it exits
the consume loop and the request is never delivered. -/
theorem c5_counterexample_requestMistakenForSentinel :
    appendEntryA "sensors/temp" "stop" false ≠ sentinelA
    ∧ workerIterA [appendEntryA "sensors/temp" "stop" false]
        = ([], IterResultA.exited) :=
  ⟨by decide, rfl⟩

/-- C5 (amended): the worker's exit test looks only at the dequeued
entry's payload: it exits the consume loop exactly when that payload is
the string `"stop"`.  The sentinel pushed by `stop()` always triggers the
exit, but so does any request appended with payload `"stop"` — such a
request is treated as a stop signal and not delivered.  Requests whose
payload differs from `"stop"` are never mistaken for the sentinel. -/
theorem c5_amended_exitIffStopPayload :
    (∀ (e : EntryA) (rest : List EntryA),
        (workerIterA (e :: rest)).2 = IterResultA.exited ↔
          e.payload = "stop")
    ∧ (∀ rest : List EntryA,
        workerIterA (sentinelA :: rest) = (rest, IterResultA.exited)) := by
  constructor
  · intro e rest
    by_cases he : e.payload = "stop" <;> simp [workerIterA, he]
  · intro rest
    rfl

/-- Witness for C5 (amended): the sentinel at the head of a non-empty
deque makes the worker exit at once, leaving the rest of the queue
undrained. -/
theorem c5_amended_exitIffStopPayload_witness :
    workerIterA (sentinelA :: [appendEntryA "t" "p" false])
      = ([appendEntryA "t" "p" false], IterResultA.exited) :=
  c5_amended_exitIffStopPayload.2 [appendEntryA "t" "p" false]

/-- C8 counterexample: Variant A's consume loop does not block on an
empty queue — an iteration on the empty deque completes with nothing
dequeued (`len(self._q) > 0` is false) and the loop immediately re-checks:
a repeated non-blocking emptiness check, i.e. busy-polling, not a
blocking dequeue. -/
theorem c8_counterexample_busyPollOnEmpty :
    workerIterA [] = ([], IterResultA.spun) :=
  rfl

/-- C8 (amended): only Variant B's removal step blocks the worker when
the queue is empty: `self._q.get()` never completes an iteration on the
empty queue (the worker suspends until an entry is available) and on a
non-empty queue removes exactly the head.  Variant A's consume loop
instead busy-polls: an iteration on the empty deque completes without
dequeuing and repeats the `len` check. -/
theorem c8_amended_blockingDequeueOnlyInB :
    workerIterB [] = none
    ∧ (∀ (e : EntryB) (rest : List EntryB),
        workerIterB (e :: rest) = some (rest, pubOfB e))
    ∧ workerIterA [] = ([], IterResultA.spun) :=
  ⟨rfl, fun _ _ => rfl, rfl⟩

end MqttTools
